import Mathlib

/-!
Verification of the valhalla route-response encoding slice: the OpenLR
location-reference encoder (`road_class_to_fow`, `openlr_edges`), the JSON
attachment points (`route_references`, `openlr`) and the binary dispatcher
(`serializePbf`), shallowly embedded from `src/src/mjolnir/legal_speed.h`.
Geographic coordinates, headings and edge lengths (C++ `float`/`double`)
are modelled as rationals; protobuf sub-message presence is modelled with
`Option` / `Bool` fields.
-/

namespace Valhalla

/-- Decoded polyline point (midgard::PointLL); lng/lat as rationals. -/
structure PointLL where
  lng : ℚ
  lat : ℚ
deriving Repr, DecidableEq

/-- valhalla::RoadClass protobuf enumeration, in its declared ordinal order
(kMotorway = 0 … kServiceOther = 7). -/
inductive RoadClass where
  | kMotorway
  | kTrunk
  | kPrimary
  | kSecondary
  | kTertiary
  | kUnclassified
  | kResidential
  | kServiceOther
deriving Repr, DecidableEq

/-- The protobuf enum ordinal of a road class, the value produced by the
C++ `static_cast<uint8_t>(edge.road_class())`. -/
def RoadClass.ord : RoadClass → Nat
  | .kMotorway => 0
  | .kTrunk => 1
  | .kPrimary => 2
  | .kSecondary => 3
  | .kTertiary => 4
  | .kUnclassified => 5
  | .kResidential => 6
  | .kServiceOther => 7

/-- TripLeg use values consumed by the classifier, plus representatives of
the remaining uses (only ramp/turn-channel are distinguished by the code). -/
inductive Use where
  | kRoadUse
  | kRampUse
  | kTurnChannelUse
  | kTrackUse
  | kDrivewayUse
  | kLivingStreetUse
  | kServiceRoadUse
  | kFootwayUse
  | kOtherUse
deriving Repr, DecidableEq

/-- TripLeg traversability enumeration. -/
inductive Traversability where
  | kNone
  | kForward
  | kBackward
  | kBoth
deriving Repr, DecidableEq

/-- OpenLR form-of-way enumeration
(baldr::OpenLR::LocationReferencePoint::FormOfWay). -/
inductive FormOfWay where
  | UNDEFINED
  | MOTORWAY
  | MULTIPLE_CARRIAGEWAY
  | SINGLE_CARRIAGEWAY
  | ROUNDABOUT
  | TRAFFICSQUARE
  | SLIPROAD
  | OTHER
deriving Repr, DecidableEq

/-- TripLeg::Edge attributes consumed by the OpenLR encoder. -/
structure Edge where
  roundabout : Bool
  use : Use
  road_class : RoadClass
  traversability : Traversability
  length_km : ℚ
  begin_shape_index : Nat
  end_shape_index : Nat
deriving Repr, DecidableEq

/-- Form-of-way classification, embedded from `road_class_to_fow` in the
source: an if/else-if chain evaluated top to bottom. -/
def road_class_to_fow (edge : Edge) : FormOfWay :=
  if edge.roundabout then
    FormOfWay.ROUNDABOUT
  else if edge.use = Use.kRampUse ∨ edge.use = Use.kTurnChannelUse then
    FormOfWay.SLIPROAD
  else if edge.road_class = RoadClass.kMotorway then
    FormOfWay.MOTORWAY
  else if edge.traversability = Traversability.kBoth then
    FormOfWay.MULTIPLE_CARRIAGEWAY
  else if edge.traversability ≠ Traversability.kNone then
    FormOfWay.SINGLE_CARRIAGEWAY
  else
    FormOfWay.OTHER

/-- The FOW decision chain exactly as the spec words it (§4.2): an ordered
list of (predicate, result) pairs evaluated first-match-wins. -/
def fow_spec_chain : List ((Edge → Bool) × FormOfWay) :=
  [ (fun e => e.roundabout, FormOfWay.ROUNDABOUT),
    (fun e => decide (e.use = Use.kRampUse ∨ e.use = Use.kTurnChannelUse), FormOfWay.SLIPROAD),
    (fun e => decide (e.road_class = RoadClass.kMotorway), FormOfWay.MOTORWAY),
    (fun e => decide (e.traversability = Traversability.kBoth), FormOfWay.MULTIPLE_CARRIAGEWAY),
    (fun e => decide (e.traversability = Traversability.kForward ∨
                      e.traversability = Traversability.kBackward), FormOfWay.SINGLE_CARRIAGEWAY),
    (fun e => decide (e.traversability = Traversability.kNone), FormOfWay.OTHER) ]

/-- First-match-wins evaluation of a (predicate, result) chain; the spec's
chain is exhaustive, so the fall-through value is never reached. -/
def firstMatch (e : Edge) : List ((Edge → Bool) × FormOfWay) → FormOfWay
  | [] => FormOfWay.UNDEFINED
  | pr :: rest => if pr.1 e then pr.2 else firstMatch e rest

/-- Spec-side FOW classifier: the priority chain of §4.2, first match wins. -/
def road_class_to_fow_spec (e : Edge) : FormOfWay :=
  firstMatch e fow_spec_chain

/-- Signature of midgard::tangent_angle, an external collaborator of this
slice (it lives in midgard, outside the analysed source): arguments are
index, the point at that index, the whole shape, the look-ahead window in
meters, the forward flag, and the lower/upper clamp indices; the result is
a bearing in degrees. The OpenLR claims below are independent of the
bearing values, so the encoder is parametric in this function. -/
def TangentAngleFn : Type :=
  Nat → PointLL → List PointLL → ℚ → Bool → Nat → Nat → ℚ

/-- Modelled from the spec: baldr::OpenLR::LocationReferencePoint (§3).
The C++ constructor takes longitude, latitude, bearing, FRC, FOW, a
pointer to the previous LRP of the chain, and optional trailing
distance-to-next / lowest-FRC-to-next arguments. The pointer is modelled
as the index of the referenced LRP within its chain, and the optional
trailing arguments as `Option` values (`none` when the call site omits
them, matching "no outgoing distance/FRC since it is terminal"). -/
structure LocationReferencePoint where
  longitude : ℚ
  latitude : ℚ
  bearing : ℚ
  frc : Nat
  fow : FormOfWay
  previous : Option Nat
  distance : Option ℚ
  lowest_frc : Option Nat
deriving Repr, DecidableEq

/-- Modelled from the spec: baldr::OpenLR::OpenLr (§3) — an ordered
sequence of LRPs plus positive/negative offsets. -/
structure OpenLr where
  lrps : List LocationReferencePoint
  poff : Nat
  noff : Nat
deriving Repr, DecidableEq

/-- Modelled from the spec: `OpenLr::toBase64` (§6) renders the chain in
the OpenLR binary exchange format as base64 text. The byte-level encoding
lives outside the analysed source; no claim inspects the rendered bytes,
so the string is modelled as a canonical textual dump of the chain. -/
def OpenLr.toBase64 (r : OpenLr) : String :=
  reprStr r

/-- A node of a trip leg: the last node of a leg carries no edge. -/
structure Node where
  edge : Option Edge
deriving Repr, DecidableEq

/-- One trip leg. The C++ code stores the shape as an encoded polyline
string and decodes it with midgard::decode (an external collaborator);
here `shape` holds the decoded point sequence directly. -/
structure TripLeg where
  shape : List PointLL
  node : List Node
deriving Repr, DecidableEq

/-- Fallback point for out-of-range shape indexing (the source trusts the
upstream invariant that shape indices are in range; C++ `operator[]` is
unchecked). -/
def defaultPoint : PointLL := ⟨0, 0⟩

/-- The per-edge body of the `openlr_edges` loop: classify the edge, take
its FRC as the road-class ordinal, compute forward/reverse bearings over
the edge's own shape span with a 20 m window, build the two-LRP chain
(start LRP carries distance = length_km * 1000 m and lowest-FRC = the same
FRC; end LRP back-references the start LRP, its trailing constructor
arguments omitted) and assemble the reference with zero offsets. -/
def encode_edge (ta : TangentAngleFn) (shape : List PointLL) (edge : Edge) : OpenLr :=
  let fow := road_class_to_fow edge
  let frc := edge.road_class.ord
  let begin_index := edge.begin_shape_index
  let end_index := edge.end_shape_index
  let start := shape.getD begin_index defaultPoint
  let forward_heading := ta begin_index start shape 20 true begin_index end_index
  let endp := shape.getD end_index defaultPoint
  let reverse_heading := ta end_index endp shape 20 false begin_index end_index
  let lrp_start : LocationReferencePoint :=
    ⟨start.lng, start.lat, forward_heading, frc, fow, none,
      some (edge.length_km * 1000), some frc⟩
  let lrp_end : LocationReferencePoint :=
    ⟨endp.lng, endp.lat, reverse_heading, frc, fow, some 0, none, none⟩
  ⟨[lrp_start, lrp_end], 0, 0⟩

/-- The loop of `openlr_edges`: one output string per node until the first
node without an edge, where the C++ `break` stops the whole loop. -/
def openlr_edges_loop (ta : TangentAngleFn) (shape : List PointLL) :
    List Node → List String
  | [] => []
  | n :: rest =>
    match n.edge with
    | none => []
    | some e => (encode_edge ta shape e).toBase64 :: openlr_edges_loop ta shape rest

/-- Embedded from `openlr_edges` in the source: decode the leg shape once,
then walk the leg's nodes emitting one encoded OpenLR reference per edge,
breaking at the first node that has no edge. -/
def openlr_edges (ta : TangentAngleFn) (leg : TripLeg) : List String :=
  openlr_edges_loop ta leg.shape leg.node

/-- The string the loop emits for a node, when that node has an edge. -/
def edge_ref (ta : TangentAngleFn) (shape : List PointLL) (n : Node) : Option String :=
  n.edge.map (fun e => (encode_edge ta shape e).toBase64)

/-- valhalla::Options::Action protobuf enumeration (no_action = 0 is the
proto default). -/
inductive Action where
  | no_action
  | route
  | locate
  | sources_to_targets
  | optimized_route
  | isochrone
  | trace_route
  | trace_attributes
  | height
  | transit_available
  | expansion
  | centroid
  | status
deriving Repr, DecidableEq

/-- Requested output format (Options::Format). -/
inductive Format where
  | json
  | gpx
  | osrm
  | pbf
deriving Repr, DecidableEq

/-- The explicit pbf field-selection mask (PbfFieldSelector message);
every flag defaults to false, matching the protobuf default instance. -/
structure PbfFieldSelector where
  trip : Bool := false
  directions : Bool := false
  status : Bool := false
  matrix : Bool := false
  options : Bool := false
deriving Repr, DecidableEq

/-- The request options consumed by this slice. `has_pbf_field_selector`
models protobuf presence of the optional selector sub-message. -/
structure Options where
  format : Format := Format.json
  linear_references : Bool := false
  action : Action := Action.no_action
  has_pbf_field_selector : Bool := false
  pbf_field_selector : PbfFieldSelector := {}
deriving Repr, DecidableEq

/-- The protobuf default Options instance (what a getter returns when the
sub-message is absent). -/
def defaultOptions : Options := {}

/-- Protobuf getter semantics: reading `pbf_field_selector()` on an
Options whose selector sub-message is absent yields the default
(all-false) selector. -/
def Options.getSelector (o : Options) : PbfFieldSelector :=
  if o.has_pbf_field_selector then o.pbf_field_selector else {}

/-- One route of the trip (TripRoute): its legs. -/
structure TripRoute where
  legs : List TripLeg
deriving Repr, DecidableEq

/-- The trip substructure: its routes. -/
structure Trip where
  routes : List TripRoute
deriving Repr, DecidableEq

/-- The request-info substructure; only the service flag is consumed. -/
structure Info where
  is_service : Bool
deriving Repr, DecidableEq

/-- The composite Api response object. `options`, `trip` and `info` model
protobuf sub-message presence with `Option`; for `directions`, `status`
and `matrix` only presence matters to this slice, so they are presence
booleans. -/
structure Api where
  options : Option Options
  trip : Option Trip
  directions : Bool
  status : Bool
  matrix : Bool
  info : Option Info
deriving Repr, DecidableEq

/-- Protobuf getter semantics: `request.options()` yields the default
instance when the sub-message is absent. -/
def Api.getOptions (a : Api) : Options :=
  a.options.getD defaultOptions

/-- The C++ `request.has_info() && request.info().is_service()`. -/
def Api.isServiceCall (a : Api) : Bool :=
  match a.info with
  | some i => i.is_service
  | none => false

/-- Embedded from `route_references` in the source: append a
"linear_references" entry holding the concatenated per-leg OpenLR strings
to the route JSON map iff linear references were requested and the action
is trace_route or route; otherwise return the map unchanged. The JSON map
is modelled as an ordered key/value list whose values are string arrays. -/
def route_references (ta : TangentAngleFn) (route_json : List (String × List String))
    (route : TripRoute) (options : Options) : List (String × List String) :=
  let linear_reference :=
    options.linear_references = true ∧
      (options.action = Action.trace_route ∨ options.action = Action.route)
  if ¬linear_reference then
    route_json
  else
    route_json ++ [("linear_references", (route.legs.map (openlr_edges ta)).flatten)]

/-- Embedded from `openlr` in the source: the writer-based variant. The
writer side-effect is modelled by the function's result: `none` when no
"linear_references" array is emitted, `some contents` when the array is
written. -/
def openlr (ta : TangentAngleFn) (api : Api) (route_index : Nat) : Option (List String) :=
  if api.getOptions.linear_references = false ∨
      (api.getOptions.action ≠ Action.trace_route ∧ api.getOptions.action ≠ Action.route) then
    none
  else
    some (((((api.trip.getD ⟨[]⟩).routes.getD route_index ⟨[]⟩).legs.map
      (openlr_edges ta))).flatten)

/-- The action-to-selection inference of `serializePbf`'s switch: `none`
is the `default:` branch that throws. -/
def inferSelection : Action → Option PbfFieldSelector
  | Action.route => some { directions := true }
  | Action.centroid => some { directions := true }
  | Action.optimized_route => some { directions := true }
  | Action.trace_route => some { directions := true }
  | Action.trace_attributes => some { trip := true }
  | Action.status => some { status := true }
  | Action.sources_to_targets => some { matrix := true }
  | _ => none

/-- The clearing block of `serializePbf`: every substructure whose
selection flag is unset is cleared before serialization. -/
def clearUnselected (selection : PbfFieldSelector) (a : Api) : Api :=
  { a with
    trip := if selection.trip then a.trip else none,
    directions := selection.directions && a.directions,
    status := selection.status && a.status,
    options := if selection.options then a.options else none,
    matrix := selection.matrix && a.matrix }

/-- The exception message of `serializePbf`'s default branch. -/
def unsupportedPbfMsg : String :=
  "Requested action is not yet serializable as pbf"

/-- The `skip_options` condition of `serializePbf`: the request's own
selector (protobuf getter, defaulting when absent) excludes options and
the request is an internal service call. -/
def pbfSkipOptions (request : Api) : Bool :=
  !request.getOptions.getSelector.options && request.isServiceCall

/-- The options detach step of `serializePbf`: swapping `mutable_options()`
with the default-constructed local `dummy` leaves a present, default
options sub-message on the request (the original contents move to
`dummy`, modelled in `serializePbfWith` as `getOptions` of the original
request). -/
def pbfDetach (request : Api) : Api :=
  if pbfSkipOptions request then { request with options := some defaultOptions } else request

/-- The tail of `serializePbf` once a field selection is in hand: detach
the options echo when `skip_options` holds, clear every unselected
substructure, serialize (the bytes are the snapshot of the message at
that moment), then swap the original options contents back in. -/
def serializePbfWith (request : Api) (selection : PbfFieldSelector) :
    Api × Except String Api :=
  (if pbfSkipOptions request then
     { clearUnselected selection (pbfDetach request) with options := some request.getOptions }
   else
     clearUnselected selection (pbfDetach request),
   Except.ok (clearUnselected selection (pbfDetach request)))

/-- Embedded from `serializePbf` in the source. The result pairs the
post-call in-memory request object with either the thrown error or the
serialized bytes. When the request carries no explicit pbf field
selector, the selection is inferred from the action; the `default:`
branch of the switch throws. -/
def serializePbf (request : Api) : Api × Except String Api :=
  match (if request.getOptions.has_pbf_field_selector then
           some request.getOptions.pbf_field_selector
         else
           inferSelection request.getOptions.action) with
  | none => (request, Except.error unsupportedPbfMsg)
  | some selection => serializePbfWith request selection

/-! Helper lemmas about the encoder loop and the dispatcher. -/

theorem openlr_edges_loop_break (ta : TangentAngleFn) (shape : List PointLL)
    (mid : Node) (hmid : mid.edge = none) (post : List Node) :
    ∀ ns : List Node, (∀ n ∈ ns, n.edge.isSome = true) →
      openlr_edges_loop ta shape (ns ++ mid :: post) = ns.filterMap (edge_ref ta shape) := by
  intro ns
  induction ns with
  | nil =>
    intro _
    simp [openlr_edges_loop, hmid]
  | cons n rest ih =>
    intro h
    rcases Option.isSome_iff_exists.mp (h n (List.mem_cons_self n rest)) with ⟨e, he⟩
    have hrest := ih fun m hm => h m (List.mem_cons_of_mem n hm)
    simp [openlr_edges_loop, he, edge_ref, List.filterMap_cons, hrest]

theorem edge_ref_filterMap_length (ta : TangentAngleFn) (shape : List PointLL) :
    ∀ ns : List Node, (∀ n ∈ ns, n.edge.isSome = true) →
      (ns.filterMap (edge_ref ta shape)).length = ns.length := by
  intro ns
  induction ns with
  | nil => intro _; rfl
  | cons n rest ih =>
    intro h
    rcases Option.isSome_iff_exists.mp (h n (List.mem_cons_self n rest)) with ⟨e, he⟩
    have hrest := ih fun m hm => h m (List.mem_cons_of_mem n hm)
    simp [edge_ref, he, List.filterMap_cons, hrest]

theorem serializePbf_eq_with (request : Api) (selection : PbfFieldSelector)
    (hsel : (if request.getOptions.has_pbf_field_selector then
               some request.getOptions.pbf_field_selector
             else
               inferSelection request.getOptions.action) = some selection) :
    serializePbf request = serializePbfWith request selection := by
  unfold serializePbf
  rw [hsel]

theorem serializePbf_eq_error (request : Api)
    (hsel : (if request.getOptions.has_pbf_field_selector then
               some request.getOptions.pbf_field_selector
             else
               inferSelection request.getOptions.action) = none) :
    serializePbf request = (request, Except.error unsupportedPbfMsg) := by
  unfold serializePbf
  rw [hsel]

theorem pbfDetach_trip (request : Api) : (pbfDetach request).trip = request.trip := by
  unfold pbfDetach
  split <;> rfl

theorem pbfDetach_directions (request : Api) :
    (pbfDetach request).directions = request.directions := by
  unfold pbfDetach
  split <;> rfl

theorem pbfDetach_status (request : Api) : (pbfDetach request).status = request.status := by
  unfold pbfDetach
  split <;> rfl

theorem pbfDetach_matrix (request : Api) : (pbfDetach request).matrix = request.matrix := by
  unfold pbfDetach
  split <;> rfl

/-! Claim theorems. -/

/-- C3: the form-of-way classification is the fixed first-match-wins
priority chain of the spec (roundabout, then ramp/turn-channel, then
motorway, then bidirectional, then unidirectional, then none), and in
particular a roundabout motorway edge classifies as ROUNDABOUT. -/
theorem claim_C3_fow_priority_chain :
    (∀ e : Edge, road_class_to_fow e = road_class_to_fow_spec e) ∧
      road_class_to_fow
          ⟨true, Use.kRoadUse, RoadClass.kMotorway, Traversability.kBoth, 1, 0, 1⟩ =
        FormOfWay.ROUNDABOUT := by
  constructor
  · intro e
    rcases e with ⟨rb, u, rc, tv, len, bi, ei⟩
    cases rb <;> cases u <;> cases rc <;> cases tv <;> rfl
  · rfl

/-- C1: for a leg whose nodes are N edge-bearing nodes followed by the
edge-less final node, `openlr_edges` returns exactly one OpenLR reference
string per traversed edge, in traversal order — N strings, never N + 1. -/
theorem claim_C1_one_reference_per_edge (ta : TangentAngleFn) (leg : TripLeg)
    (ns : List Node) (lastNode : Node)
    (hnode : leg.node = ns ++ [lastNode])
    (hedges : ∀ n ∈ ns, n.edge.isSome = true)
    (hlast : lastNode.edge = none) :
    openlr_edges ta leg = ns.filterMap (edge_ref ta leg.shape) ∧
      (openlr_edges ta leg).length = ns.length := by
  have h1 : openlr_edges ta leg = ns.filterMap (edge_ref ta leg.shape) := by
    rw [openlr_edges, hnode]
    exact openlr_edges_loop_break ta leg.shape lastNode hlast [] ns hedges
  refine ⟨h1, ?_⟩
  rw [h1]
  exact edge_ref_filterMap_length ta leg.shape ns hedges

/-- C9: the encoder loop breaks at the first node without an edge — for a
node list made of an edge-bearing run, an edge-less node, then arbitrary
further nodes, the output is exactly the references of the run; the later
nodes contribute nothing. -/
theorem claim_C9_break_at_first_edgeless_node (ta : TangentAngleFn) (shape : List PointLL)
    (pre : List Node) (mid : Node) (post : List Node)
    (hpre : ∀ n ∈ pre, n.edge.isSome = true)
    (hmid : mid.edge = none) :
    openlr_edges ta ⟨shape, pre ++ mid :: post⟩ = pre.filterMap (edge_ref ta shape) ∧
      (openlr_edges ta ⟨shape, pre ++ mid :: post⟩).length = pre.length := by
  have h1 : openlr_edges ta ⟨shape, pre ++ mid :: post⟩ = pre.filterMap (edge_ref ta shape) :=
    openlr_edges_loop_break ta shape mid hmid post pre hpre
  refine ⟨h1, ?_⟩
  rw [h1]
  exact edge_ref_filterMap_length ta shape pre hpre

/-- C2: each encoded edge yields a chain of exactly two LRPs with both
offsets zero; the start LRP carries distance-to-next equal to the edge
length in meters (length_km * 1000) and lowest-FRC-to-next equal to the
edge's own FRC, and the end LRP back-references the start LRP (index 0)
with no outgoing distance or lowest-FRC. -/
theorem claim_C2_two_lrp_chain (ta : TangentAngleFn) (shape : List PointLL) (edge : Edge) :
    ∃ s e : LocationReferencePoint,
      (encode_edge ta shape edge).lrps = [s, e] ∧
      (encode_edge ta shape edge).poff = 0 ∧
      (encode_edge ta shape edge).noff = 0 ∧
      s.distance = some (edge.length_km * 1000) ∧
      s.lowest_frc = some edge.road_class.ord ∧
      s.frc = edge.road_class.ord ∧
      s.previous = none ∧
      e.frc = edge.road_class.ord ∧
      e.previous = some 0 ∧
      e.distance = none ∧
      e.lowest_frc = none :=
  ⟨_, _, rfl, rfl, rfl, rfl, rfl, rfl, rfl, rfl, rfl, rfl, rfl⟩

/-- C4: the functional road class written into both LRPs of every encoded
edge is the edge's road-class ordinal taken directly (no remapping), on
the scale where kMotorway = 0 and ordinals increase toward lower classes
(kServiceOther = 7). -/
theorem claim_C4_frc_is_road_class_ordinal (ta : TangentAngleFn) (shape : List PointLL)
    (edge : Edge) :
    (encode_edge ta shape edge).lrps.map LocationReferencePoint.frc =
        [edge.road_class.ord, edge.road_class.ord] ∧
      RoadClass.ord RoadClass.kMotorway = 0 ∧
      RoadClass.ord RoadClass.kTrunk = 1 ∧
      RoadClass.ord RoadClass.kPrimary = 2 ∧
      RoadClass.ord RoadClass.kSecondary = 3 ∧
      RoadClass.ord RoadClass.kTertiary = 4 ∧
      RoadClass.ord RoadClass.kUnclassified = 5 ∧
      RoadClass.ord RoadClass.kResidential = 6 ∧
      RoadClass.ord RoadClass.kServiceOther = 7 :=
  ⟨rfl, rfl, rfl, rfl, rfl, rfl, rfl, rfl, rfl⟩

/-- C5: on both JSON paths a "linear_references" field is attached iff
linear references were requested and the action is route or trace_route;
any other action silently omits the field (both functions stay total —
omission is not an error). -/
theorem claim_C5_linear_references_allow_list (ta : TangentAngleFn)
    (route_json : List (String × List String)) (route : TripRoute) (options : Options)
    (api : Api) (route_index : Nat) :
    ((∃ refs, route_references ta route_json route options =
        route_json ++ [("linear_references", refs)]) ↔
      options.linear_references = true ∧
        (options.action = Action.route ∨ options.action = Action.trace_route)) ∧
    ((openlr ta api route_index).isSome = true ↔
      api.getOptions.linear_references = true ∧
        (api.getOptions.action = Action.route ∨
          api.getOptions.action = Action.trace_route)) := by
  constructor
  · by_cases hc : options.linear_references = true ∧
        (options.action = Action.trace_route ∨ options.action = Action.route)
    · constructor
      · intro _
        exact ⟨hc.1, hc.2.symm⟩
      · intro _
        refine ⟨(route.legs.map (openlr_edges ta)).flatten, ?_⟩
        simp only [route_references]
        rw [if_neg (not_not_intro hc)]
    · constructor
      · rintro ⟨refs, heq⟩
        simp only [route_references] at heq
        rw [if_pos hc] at heq
        have hl := congrArg List.length heq
        simp only [List.length_append, List.length_cons, List.length_nil] at hl
        omega
      · intro hright
        exact absurd ⟨hright.1, hright.2.symm⟩ hc
  · by_cases hc : api.getOptions.linear_references = false ∨
        (api.getOptions.action ≠ Action.trace_route ∧ api.getOptions.action ≠ Action.route)
    · constructor
      · intro hsome
        unfold openlr at hsome
        rw [if_pos hc] at hsome
        simp at hsome
      · intro hr
        exfalso
        rcases hc with hfalse | ⟨hnt, hnr⟩
        · simp [hr.1] at hfalse
        · rcases hr.2 with h | h
          · exact hnr h
          · exact hnt h
    · constructor
      · intro _
        have h1 : api.getOptions.linear_references = true := by
          cases hb : api.getOptions.linear_references
          · exact absurd (Or.inl hb) hc
          · rfl
        have h2 : api.getOptions.action = Action.route ∨
            api.getOptions.action = Action.trace_route := by
          by_cases ht : api.getOptions.action = Action.trace_route
          · exact Or.inr ht
          · by_cases hrt : api.getOptions.action = Action.route
            · exact Or.inl hrt
            · exact absurd (Or.inr ⟨ht, hrt⟩) hc
        exact ⟨h1, h2⟩
      · intro _
        unfold openlr
        rw [if_neg hc]
        rfl

/-- C6: with no explicit pbf field selector, serializePbf infers the
selection from the action alone — route, centroid, optimized_route and
trace_route keep only directions; trace_attributes keeps only trip;
status keeps only status; sources_to_targets keeps only matrix; every
unselected substructure (including the options echo) is cleared from the
serialized bytes. -/
theorem claim_C6_default_selection_by_action (request : Api)
    (h : request.getOptions.has_pbf_field_selector = false) :
    ((request.getOptions.action = Action.route ∨
        request.getOptions.action = Action.centroid ∨
        request.getOptions.action = Action.optimized_route ∨
        request.getOptions.action = Action.trace_route) →
      ∃ snap, (serializePbf request).2 = Except.ok snap ∧
        snap.directions = request.directions ∧ snap.trip = none ∧
        snap.status = false ∧ snap.matrix = false ∧ snap.options = none) ∧
    (request.getOptions.action = Action.trace_attributes →
      ∃ snap, (serializePbf request).2 = Except.ok snap ∧
        snap.trip = request.trip ∧ snap.directions = false ∧
        snap.status = false ∧ snap.matrix = false ∧ snap.options = none) ∧
    (request.getOptions.action = Action.status →
      ∃ snap, (serializePbf request).2 = Except.ok snap ∧
        snap.status = request.status ∧ snap.trip = none ∧
        snap.directions = false ∧ snap.matrix = false ∧ snap.options = none) ∧
    (request.getOptions.action = Action.sources_to_targets →
      ∃ snap, (serializePbf request).2 = Except.ok snap ∧
        snap.matrix = request.matrix ∧ snap.trip = none ∧
        snap.directions = false ∧ snap.status = false ∧ snap.options = none) := by
  refine ⟨?_, ?_, ?_, ?_⟩
  · intro ha
    have hsel : (if request.getOptions.has_pbf_field_selector then
          some request.getOptions.pbf_field_selector
        else inferSelection request.getOptions.action) =
        some ({ directions := true } : PbfFieldSelector) := by
      rcases ha with ha | ha | ha | ha <;> simp [h, ha, inferSelection]
    rw [serializePbf_eq_with request _ hsel]
    exact ⟨_, rfl, by simp [clearUnselected, pbfDetach_directions], rfl, rfl, rfl, rfl⟩
  · intro ha
    have hsel : (if request.getOptions.has_pbf_field_selector then
          some request.getOptions.pbf_field_selector
        else inferSelection request.getOptions.action) =
        some ({ trip := true } : PbfFieldSelector) := by
      simp [h, ha, inferSelection]
    rw [serializePbf_eq_with request _ hsel]
    exact ⟨_, rfl, by simp [clearUnselected, pbfDetach_trip], rfl, rfl, rfl, rfl⟩
  · intro ha
    have hsel : (if request.getOptions.has_pbf_field_selector then
          some request.getOptions.pbf_field_selector
        else inferSelection request.getOptions.action) =
        some ({ status := true } : PbfFieldSelector) := by
      simp [h, ha, inferSelection]
    rw [serializePbf_eq_with request _ hsel]
    exact ⟨_, rfl, by simp [clearUnselected, pbfDetach_status], rfl, rfl, rfl, rfl⟩
  · intro ha
    have hsel : (if request.getOptions.has_pbf_field_selector then
          some request.getOptions.pbf_field_selector
        else inferSelection request.getOptions.action) =
        some ({ matrix := true } : PbfFieldSelector) := by
      simp [h, ha, inferSelection]
    rw [serializePbf_eq_with request _ hsel]
    exact ⟨_, rfl, by simp [clearUnselected, pbfDetach_matrix], rfl, rfl, rfl, rfl⟩

/-- C7: an action with no binary mapping, requested without an explicit
field selector, makes serializePbf raise the hard error; the in-memory
request is left untouched and no byte string is produced. -/
theorem claim_C7_unsupported_action_fatal (request : Api)
    (h : request.getOptions.has_pbf_field_selector = false)
    (hact : inferSelection request.getOptions.action = none) :
    serializePbf request = (request, Except.error unsupportedPbfMsg) := by
  apply serializePbf_eq_error
  simp [h, hact]

/-- C8: when the field selection excludes options and the request is an
internal service call, the options echo is detached around serialization
and reattached on every exit path — after the call (error or not) the
in-memory request still carries its original options contents. -/
theorem claim_C8_options_reattached (request : Api) (o : Options)
    (hopt : request.options = some o)
    (hexcl : request.getOptions.getSelector.options = false)
    (hsvc : request.isServiceCall = true) :
    (serializePbf request).1.options = some o := by
  cases hsel : (if request.getOptions.has_pbf_field_selector then
      some request.getOptions.pbf_field_selector
    else inferSelection request.getOptions.action) with
  | none =>
    rw [serializePbf_eq_error request hsel]
    exact hopt
  | some selection =>
    rw [serializePbf_eq_with request selection hsel]
    have hskip : pbfSkipOptions request = true := by
      simp [pbfSkipOptions, hexcl, hsvc]
    simp [serializePbfWith, hskip, Api.getOptions, hopt]

/-- C10: an explicit pbf field selector bypasses the action-to-selection
inference and its fatal error branch entirely — serialization succeeds
for every action and each substructure survives in the bytes iff the
caller's selector retains it. -/
theorem claim_C10_explicit_selector_bypasses_inference (request : Api)
    (h : request.getOptions.has_pbf_field_selector = true) :
    ∃ snap, (serializePbf request).2 = Except.ok snap ∧
      (request.getOptions.pbf_field_selector.trip = false → snap.trip = none) ∧
      (request.getOptions.pbf_field_selector.trip = true → snap.trip = request.trip) ∧
      (request.getOptions.pbf_field_selector.directions = false → snap.directions = false) ∧
      (request.getOptions.pbf_field_selector.directions = true →
        snap.directions = request.directions) ∧
      (request.getOptions.pbf_field_selector.status = false → snap.status = false) ∧
      (request.getOptions.pbf_field_selector.status = true → snap.status = request.status) ∧
      (request.getOptions.pbf_field_selector.matrix = false → snap.matrix = false) ∧
      (request.getOptions.pbf_field_selector.matrix = true → snap.matrix = request.matrix) ∧
      (request.getOptions.pbf_field_selector.options = false → snap.options = none) ∧
      (request.getOptions.pbf_field_selector.options = true →
        snap.options = request.options) := by
  have hsel : (if request.getOptions.has_pbf_field_selector then
        some request.getOptions.pbf_field_selector
      else inferSelection request.getOptions.action) =
      some request.getOptions.pbf_field_selector := by
    simp [h]
  rw [serializePbf_eq_with request _ hsel]
  refine ⟨_, rfl, ?_, ?_, ?_, ?_, ?_, ?_, ?_, ?_, ?_, ?_⟩
  · intro hx; simp [clearUnselected, hx]
  · intro hx; simp [clearUnselected, hx, pbfDetach_trip]
  · intro hx; simp [clearUnselected, hx]
  · intro hx; simp [clearUnselected, hx, pbfDetach_directions]
  · intro hx; simp [clearUnselected, hx]
  · intro hx; simp [clearUnselected, hx, pbfDetach_status]
  · intro hx; simp [clearUnselected, hx]
  · intro hx; simp [clearUnselected, hx, pbfDetach_matrix]
  · intro hx; simp [clearUnselected, hx]
  · intro hx
    have hskip : pbfSkipOptions request = false := by
      simp [pbfSkipOptions, Options.getSelector, h, hx]
    simp [clearUnselected, hx, pbfDetach, hskip]

/-! Concrete instances used by the witness theorems. -/

/-- A concrete bearing estimator instance (the claims hold for every
tangent-angle function). -/
def taZero : TangentAngleFn := fun _ _ _ _ _ _ _ => 0

def edgeA : Edge :=
  ⟨false, Use.kRoadUse, RoadClass.kPrimary, Traversability.kBoth, 1, 0, 1⟩

def edgeB : Edge :=
  ⟨false, Use.kRoadUse, RoadClass.kSecondary, Traversability.kForward, 2, 1, 2⟩

def shapeW : List PointLL := [⟨0, 0⟩, ⟨1, 0⟩, ⟨2, 0⟩]

def legW : TripLeg := ⟨shapeW, [⟨some edgeA⟩, ⟨some edgeB⟩, ⟨none⟩]⟩

def apiC6 : Api := ⟨some { action := Action.status }, none, false, true, false, none⟩

def apiC7 : Api := ⟨some { action := Action.locate }, none, false, false, false, none⟩

def optC8 : Options := { action := Action.route }

def apiC8 : Api := ⟨some optC8, none, true, false, false, some ⟨true⟩⟩

def optC10 : Options :=
  { action := Action.locate, has_pbf_field_selector := true,
    pbf_field_selector := { trip := true } }

def apiC10 : Api := ⟨some optC10, some ⟨[]⟩, false, true, false, none⟩

/-- Witness for C1: a two-edge leg with its trailing edge-less node yields
exactly two reference strings. -/
theorem claim_C1_witness :
    openlr_edges taZero legW =
        List.filterMap (edge_ref taZero legW.shape) [⟨some edgeA⟩, ⟨some edgeB⟩] ∧
      (openlr_edges taZero legW).length = 2 :=
  claim_C1_one_reference_per_edge taZero legW [⟨some edgeA⟩, ⟨some edgeB⟩] ⟨none⟩ rfl
    (by decide) rfl

/-- Witness for C9: an edge-bearing node after an edge-less node produces
no output entry. -/
theorem claim_C9_witness :
    openlr_edges taZero ⟨shapeW, [⟨some edgeA⟩] ++ ⟨none⟩ :: [⟨some edgeB⟩]⟩ =
        List.filterMap (edge_ref taZero shapeW) [⟨some edgeA⟩] ∧
      (openlr_edges taZero ⟨shapeW, [⟨some edgeA⟩] ++ ⟨none⟩ :: [⟨some edgeB⟩]⟩).length = 1 :=
  claim_C9_break_at_first_edgeless_node taZero shapeW [⟨some edgeA⟩] ⟨none⟩ [⟨some edgeB⟩]
    (by decide) rfl

/-- Witness for C6 (spec scenario C): a status action in binary format
with no field selection keeps only the status substructure. -/
theorem claim_C6_witness :
    ∃ snap, (serializePbf apiC6).2 = Except.ok snap ∧
      snap.status = apiC6.status ∧ snap.trip = none ∧
      snap.directions = false ∧ snap.matrix = false ∧ snap.options = none :=
  (claim_C6_default_selection_by_action apiC6 rfl).2.2.1 rfl

/-- Witness for C7: a locate action has no binary mapping and the call
raises the hard error, leaving the request untouched. -/
theorem claim_C7_witness :
    serializePbf apiC7 = (apiC7, Except.error unsupportedPbfMsg) :=
  claim_C7_unsupported_action_fatal apiC7 rfl rfl

/-- Witness for C8: an internal service request whose selection excludes
options still carries its original options after serialization. -/
theorem claim_C8_witness : (serializePbf apiC8).1.options = some optC8 :=
  claim_C8_options_reattached apiC8 optC8 rfl rfl rfl

/-- Witness for C10: an explicit selector serializes even a locate action
(no binary mapping) under the caller's selection. -/
theorem claim_C10_witness :
    ∃ snap, (serializePbf apiC10).2 = Except.ok snap ∧
      (apiC10.getOptions.pbf_field_selector.trip = false → snap.trip = none) ∧
      (apiC10.getOptions.pbf_field_selector.trip = true → snap.trip = apiC10.trip) ∧
      (apiC10.getOptions.pbf_field_selector.directions = false → snap.directions = false) ∧
      (apiC10.getOptions.pbf_field_selector.directions = true →
        snap.directions = apiC10.directions) ∧
      (apiC10.getOptions.pbf_field_selector.status = false → snap.status = false) ∧
      (apiC10.getOptions.pbf_field_selector.status = true → snap.status = apiC10.status) ∧
      (apiC10.getOptions.pbf_field_selector.matrix = false → snap.matrix = false) ∧
      (apiC10.getOptions.pbf_field_selector.matrix = true → snap.matrix = apiC10.matrix) ∧
      (apiC10.getOptions.pbf_field_selector.options = false → snap.options = none) ∧
      (apiC10.getOptions.pbf_field_selector.options = true →
        snap.options = apiC10.options) :=
  claim_C10_explicit_selector_bypasses_inference apiC10 rfl

end Valhalla
